import Mathlib

/-!
Verification of the scs_gin_adapter repository: a Gin middleware adapter for
the scs session manager. The adapter (src/scs_gin_adapter.go) sequences calls
into two external collaborators: the scs session manager and the Gin framework.
The collaborators are modelled from the spec (sections 4, 6 and 8); the adapter
functions are direct translations of the Go source.
-/

/-- Session values stored under string keys. In Go these are interface values;
we model the cases the adapter distinguishes: strings (GetString type-asserts
to string), booleans (RememberMe stores a bool) and an opaque remainder. -/
inductive SVal where
  | str (s : String)
  | boolv (b : Bool)
  | other (n : Nat)
deriving DecidableEq, Repr

/-- Session status, per the spec state machine: Unloaded is before LoadPhase;
a loaded session is unmodified, modified or destroyed. -/
inductive SStatus where
  | unmodified
  | modified
  | destroyed
deriving DecidableEq, Repr

/-- Per-request session context: the data carried by the request context after
Load, mutated in place by every session-manager call on that request. -/
structure SessionCtx where
  data : List (String × SVal)
  token : String
  status : SStatus
deriving DecidableEq, Repr

/-- Server-side store contents: token to persisted session data. -/
abbrev Store := List (String × List (String × SVal))

def listGet (l : List (String × SVal)) (k : String) : Option SVal :=
  (l.find? (fun p => p.1 == k)).map (fun p => p.2)

def listPut (l : List (String × SVal)) (k : String) (v : SVal) :
    List (String × SVal) :=
  (k, v) :: l.filter (fun p => p.1 != k)

def listDel (l : List (String × SVal)) (k : String) : List (String × SVal) :=
  l.filter (fun p => p.1 != k)

def storeSet (s : Store) (tok : String) (d : List (String × SVal)) : Store :=
  (tok, d) :: s.filter (fun p => p.1 != tok)

def storeDel (s : Store) (tok : String) : Store :=
  s.filter (fun p => p.1 != tok)

def storeGet (s : Store) (tok : String) : Option (List (String × SVal)) :=
  (s.find? (fun p => p.1 == tok)).map (fun p => p.2)

/-- Modelled from the spec: the scs session manager handle (package scs/v2 is
an external collaborator, not under src). Holds the fault model for each store
operation (a some value means that operation fails with that error), the token
the manager mints for a fresh or renewed session, and the expiry computed at
commit time. Token generation and expiry computation are out of scope for the
adapter, so they are opaque parameters here. -/
structure SessionManager where
  loadErr : Option String
  commitErr : Option String
  destroyErr : Option String
  renewErr : Option String
  freshToken : String
  expiry : Nat
deriving DecidableEq, Repr

/-- Per-request state threaded through the accessor calls: the session context
carried by the request, the sequence of WriteSessionCookie calls made on the
response (the last one is the effective Set-Cookie header), the record of
successful commits (token and expiry each returned), and the store. -/
structure AState where
  sess : SessionCtx
  cookies : List (String × Nat)
  commits : List (String × Nat)
  store : Store
deriving DecidableEq, Repr

/-- Modelled from the spec: Put(ctx, key, value) of the session manager —
replaces any existing value for the key and marks the session modified. -/
def SessionManager.Put (_m : SessionManager) (st : AState) (k : String)
    (v : SVal) : AState :=
  { st with sess := { st.sess with data := listPut st.sess.data k v,
                                   status := SStatus.modified } }

/-- Modelled from the spec: Get(ctx, key) of the session manager — reads the
value for the key from the session data, none when absent. -/
def SessionManager.Get (_m : SessionManager) (st : AState) (k : String) :
    Option SVal :=
  listGet st.sess.data k

/-- Modelled from the spec: GetString(ctx, key) of the session manager — the
string value for the key, with the zero value when the key is absent or the
value is not a string. -/
def SessionManager.GetString (_m : SessionManager) (st : AState) (k : String) :
    String :=
  match listGet st.sess.data k with
  | some (SVal.str s) => s
  | _ => ""

/-- Modelled from the spec: Remove(ctx, key) of the session manager — deletes
the key (a no-op on the data when absent) and marks the session modified. -/
def SessionManager.Remove (_m : SessionManager) (st : AState) (k : String) :
    AState :=
  { st with sess := { st.sess with data := listDel st.sess.data k,
                                   status := SStatus.modified } }

/-- Modelled from the spec: RememberMe(ctx, val) of the session manager —
toggles cookie persistence for this session by storing the flag in the
session data, marking the session modified. -/
def SessionManager.RememberMe (m : SessionManager) (st : AState) (b : Bool) :
    AState :=
  m.Put st "__rememberMe" (SVal.boolv b)

/-- Modelled from the spec: Commit(ctx) of the session manager — persists the
session to the store and yields the (possibly newly minted) token and the
expiry. On a store failure it returns the zero values (empty token, zero
expiry) together with the error, leaving the store untouched. -/
def SessionManager.Commit (m : SessionManager) (st : AState) :
    (String × Nat × Option String) × AState :=
  match m.commitErr with
  | some e => (("", 0, some e), st)
  | none =>
    let tok := if st.sess.token = "" then m.freshToken else st.sess.token
    ((tok, m.expiry, none),
     { st with sess := { st.sess with token := tok },
               store := storeSet st.store tok st.sess.data,
               commits := st.commits ++ [(tok, m.expiry)] })

/-- Modelled from the spec: Destroy(ctx) of the session manager — removes the
session from the store and marks it destroyed; a store failure is returned
as an error and leaves the session state untouched. -/
def SessionManager.Destroy (m : SessionManager) (st : AState) :
    Option String × AState :=
  match m.destroyErr with
  | some e => (some e, st)
  | none =>
    (none,
     { st with sess := { st.sess with status := SStatus.destroyed, data := [] },
               store := storeDel st.store st.sess.token })

/-- Modelled from the spec: RenewToken(ctx) of the session manager — deletes
the old token from the store and gives the existing data a new token, marking
the session modified; a store failure is returned as an error and leaves the
session state untouched. -/
def SessionManager.RenewToken (m : SessionManager) (st : AState) :
    Option String × AState :=
  match m.renewErr with
  | some e => (some e, st)
  | none =>
    (none,
     { st with store := storeDel st.store st.sess.token,
               sess := { st.sess with token := m.freshToken,
                                      status := SStatus.modified } })

/-- Modelled from the spec: WriteSessionCookie(ctx, w, token, expiry) of the
session manager — serialises a Set-Cookie header on the response; an empty
token with zero expiry is the cookie-clearing directive. We record each call
on the response; the last entry is the effective header. -/
def SessionManager.WriteSessionCookie (_m : SessionManager) (st : AState)
    (tok : String) (exp : Nat) : AState :=
  { st with cookies := st.cookies ++ [(tok, exp)] }

/-- GinAdapter represents the session adapter (src/scs_gin_adapter.go line 11):
it holds one reference to the session manager. -/
structure GinAdapter where
  sm : SessionManager
deriving DecidableEq, Repr

/-- New returns a new GinAdapter instance embedding the session manager
(src/scs_gin_adapter.go line 16). -/
def New (s : SessionManager) : GinAdapter :=
  ⟨s⟩

/-- Put (src/scs_gin_adapter.go lines 49 to 53): sm.Put, then Commit with the
error discarded, then WriteSessionCookie with whatever token and expiry the
commit returned. -/
def GinAdapter.Put (ga : GinAdapter) (st : AState) (key : String) (val : SVal) :
    AState :=
  let st1 := ga.sm.Put st key val
  match ga.sm.Commit st1 with
  | ((tok, exp, _), st2) => ga.sm.WriteSessionCookie st2 tok exp

/-- Get (src/scs_gin_adapter.go lines 66 to 70): sm.Get, then Commit with the
whole result discarded; the value is returned. No cookie write occurs on this
path in the source. -/
def GinAdapter.Get (ga : GinAdapter) (st : AState) (key : String) :
    Option SVal × AState :=
  let val := ga.sm.Get st key
  match ga.sm.Commit st with
  | (_, st2) => (val, st2)

/-- Remove (src/scs_gin_adapter.go lines 75 to 80): sm.Remove, then Commit
with the error discarded, then WriteSessionCookie. -/
def GinAdapter.Remove (ga : GinAdapter) (st : AState) (key : String) : AState :=
  let st1 := ga.sm.Remove st key
  match ga.sm.Commit st1 with
  | ((tok, exp, _), st2) => ga.sm.WriteSessionCookie st2 tok exp

/-- Destroy (src/scs_gin_adapter.go lines 85 to 92): sm.Destroy; on error the
error is returned with no cookie write; on success WriteSessionCookie is
called with the empty token and the zero time, and nil is returned. -/
def GinAdapter.Destroy (ga : GinAdapter) (st : AState) :
    Option String × AState :=
  match ga.sm.Destroy st with
  | (some e, st1) => (some e, st1)
  | (none, st1) => (none, ga.sm.WriteSessionCookie st1 "" 0)

/-- RenewToken (src/scs_gin_adapter.go lines 104 to 112): sm.RenewToken; on
error the error is returned with no commit and no cookie write; on success
Commit runs with the error discarded and WriteSessionCookie is called. -/
def GinAdapter.RenewToken (ga : GinAdapter) (st : AState) :
    Option String × AState :=
  match ga.sm.RenewToken st with
  | (some e, st1) => (some e, st1)
  | (none, st1) =>
    match ga.sm.Commit st1 with
    | ((tok, exp, _), st2) => (none, ga.sm.WriteSessionCookie st2 tok exp)

/-- RememberMe (src/scs_gin_adapter.go lines 118 to 122): sm.RememberMe, then
Commit with the error discarded, then WriteSessionCookie. -/
def GinAdapter.RememberMe (ga : GinAdapter) (st : AState) (val : Bool) :
    AState :=
  let st1 := ga.sm.RememberMe st val
  match ga.sm.Commit st1 with
  | ((tok, exp, _), st2) => ga.sm.WriteSessionCookie st2 tok exp

/-- GetString (src/scs_gin_adapter.go lines 127 to 132): sm.GetString, then
Commit with the error discarded, then WriteSessionCookie; the value is
returned. -/
def GinAdapter.GetString (ga : GinAdapter) (st : AState) (key : String) :
    String × AState :=
  let val := ga.sm.GetString st key
  match ga.sm.Commit st with
  | ((tok, exp, _), st2) => (val, ga.sm.WriteSessionCookie st2 tok exp)

/-- The six mutating accessors named by the spec invariant, with their
arguments. -/
inductive Accessor where
  | put (k : String) (v : SVal)
  | remove (k : String)
  | renewToken
  | destroy
  | rememberMe (b : Bool)
  | getString (k : String)
deriving DecidableEq, Repr

/-- Runs one mutating accessor, returning the error value it exposes to the
handler (none for the accessors whose Go signature has no error result)
together with the resulting request state. -/
def runAccessor (ga : GinAdapter) (st : AState) : Accessor →
    Option String × AState
  | Accessor.put k v => (none, ga.Put st k v)
  | Accessor.remove k => (none, ga.Remove st k)
  | Accessor.renewToken => ga.RenewToken st
  | Accessor.destroy => ga.Destroy st
  | Accessor.rememberMe b => (none, ga.RememberMe st b)
  | Accessor.getString k => (none, (ga.GetString st k).2)

/-- State of one request as the middleware sees it: the incoming session
cookie value (none when the request carries no cookie under the configured
name), the session context attached to the request (none before LoadPhase),
the values added to the Vary response header, the number of times the
configured error handler was invoked together with the last error it got,
whether control was yielded to the next phase, and the store. -/
structure MWState where
  reqCookie : Option String
  reqSess : Option SessionCtx
  vary : List String
  errCalls : Nat
  lastErr : Option String
  nextCalled : Bool
  store : Store
deriving DecidableEq, Repr

/-- Token extraction of LoadAndSave (src/scs_gin_adapter.go lines 27 to 31):
the cookie value when the cookie is present, the empty token otherwise. -/
def cookieToken : Option String → String
  | some v => v
  | none => ""

/-- Modelled from the spec: Load(ctx, token) of the session manager — an
empty token yields a fresh empty session without touching the store (absence
of a cookie is not an error); otherwise a store failure is terminal, an
unknown token yields a fresh session, and a known token hydrates its data. -/
def SessionManager.Load (m : SessionManager) (store : Store) (token : String) :
    Except String SessionCtx :=
  if token = "" then
    Except.ok { data := [], token := "", status := SStatus.unmodified }
  else
    match m.loadErr with
    | some e => Except.error e
    | none =>
      match storeGet store token with
      | none => Except.ok { data := [], token := "", status := SStatus.unmodified }
      | some d => Except.ok { data := d, token := token, status := SStatus.unmodified }

/-- LoadAndSave (src/scs_gin_adapter.go lines 23 to 44): extract the token
from the cookie, Load; on error invoke the configured error handler and stop;
on success attach the returned context to the request, add Cookie to the Vary
header, and yield to the next phase, modelled as the handler function running
on the updated state. -/
def GinAdapter.LoadAndSave (ga : GinAdapter) (handler : MWState → MWState)
    (s : MWState) : MWState :=
  let token := cookieToken s.reqCookie
  match ga.sm.Load s.store token with
  | Except.error e => { s with errCalls := s.errCalls + 1, lastErr := some e }
  | Except.ok ctx =>
    handler { s with reqSess := some ctx,
                     vary := s.vary ++ ["Cookie"],
                     nextCalled := true }

/-- The session context LoadPhase attaches for a request with no prior
cookie: fresh, empty, unmodified. -/
def freshSession : SessionCtx :=
  { data := [], token := "", status := SStatus.unmodified }

/-- A session manager with no injected faults, minting token tN and expiry 7
at commit. -/
def smOK : SessionManager :=
  { loadErr := none, commitErr := none, destroyErr := none, renewErr := none,
    freshToken := "tN", expiry := 7 }

/-- A session manager whose Commit fails. -/
def smCF : SessionManager :=
  { smOK with commitErr := some "commit boom" }

/-- A session manager whose Destroy fails. -/
def smDF : SessionManager :=
  { smOK with destroyErr := some "destroy boom" }

/-- A session manager whose RenewToken fails. -/
def smRF : SessionManager :=
  { smOK with renewErr := some "renew boom" }

/-- A session manager whose Load fails. -/
def smLF : SessionManager :=
  { smOK with loadErr := some "load boom" }

/-- A request state holding a previously loaded session with token t0 and no
cookie writes yet. -/
def st0 : AState :=
  { sess := { data := [], token := "t0", status := SStatus.unmodified },
    cookies := [], commits := [], store := [("t0", [])] }

/-- A middleware request state before LoadPhase, with no cookie. -/
def mw0 : MWState :=
  { reqCookie := none, reqSess := none, vary := [], errCalls := 0,
    lastErr := none, nextCalled := false, store := [] }

/-- A middleware request state carrying a session cookie with value t0. -/
def mwT : MWState :=
  { mw0 with reqCookie := some "t0", store := [("t0", [("k", SVal.str "v")])] }

/-- Adapter over the fault-free session manager. -/
def gaOK : GinAdapter := New smOK

/-- Adapter over the manager whose Commit fails. -/
def gaCF : GinAdapter := New smCF

/-- Adapter over the manager whose Destroy fails. -/
def gaDF : GinAdapter := New smDF

/-- Adapter over the manager whose RenewToken fails. -/
def gaRF : GinAdapter := New smRF

/-- Adapter over the manager whose Load fails. -/
def gaLF : GinAdapter := New smLF

/-- The cookie condition stated by the C1 invariant: the effective Set-Cookie
entry equals the token and expiry of the last successful commit, or is the
clearing value when the session was destroyed. -/
def C1cookieOK (st : AState) : Prop :=
  st.cookies.getLast? = st.commits.getLast?
  ∨ (st.sess.status = SStatus.destroyed ∧ st.cookies.getLast? = some ("", 0))

/-- The token a successful Commit returns for the given request state: the
current session token, or the freshly minted one when the session has none. -/
def commitToken (ga : GinAdapter) (st : AState) : String :=
  if st.sess.token = "" then ga.sm.freshToken else st.sess.token

example :
    (GinAdapter.Put ⟨smOK⟩ st0 "k" (SVal.str "v")).cookies = [("t0", 7)] := by
  decide

example :
    (GinAdapter.Put ⟨smCF⟩ st0 "k" (SVal.str "v")).cookies = [("", 0)] := by
  decide

example : ((GinAdapter.Get ⟨smOK⟩ st0 "k").2).cookies = [] := by decide

example :
    GinAdapter.LoadAndSave ⟨smLF⟩ id mwT =
      { mwT with errCalls := 1, lastErr := some "load boom" } := by
  decide

/-- Claim C1, as stated, is false: when Commit fails, Put still returns
without error, yet the cookie written is the clearing value although no
successful commit produced it and the session was not destroyed. -/
theorem c1_counterexample :
    (runAccessor gaCF st0 (Accessor.put "k" (SVal.str "v"))).1 = none
    ∧ ¬ C1cookieOK (runAccessor gaCF st0 (Accessor.put "k" (SVal.str "v"))).2 := by
  constructor
  · rfl
  · simp only [C1cookieOK]
    decide

/-- Claim C1 (amended): after any mutating accessor that returns without
error, the effective Set-Cookie entry carries the token and expiry of the
commit the accessor performed, except that it is the cookie-clearing value
(empty token, zero expiry) when the session was destroyed or when the commit
failed; Destroy leaves the session destroyed. -/
theorem c1_amended (a : Accessor) (ga : GinAdapter) (st : AState)
    (h : (runAccessor ga st a).1 = none) :
    ((runAccessor ga st a).2).cookies.getLast? =
      some (if a = Accessor.destroy ∨ ga.sm.commitErr.isSome then ("", 0)
            else (((runAccessor ga st a).2).sess.token, ga.sm.expiry))
    ∧ (a = Accessor.destroy →
        ((runAccessor ga st a).2).sess.status = SStatus.destroyed) := by
  cases a <;>
    cases hce : ga.sm.commitErr <;>
      cases hde : ga.sm.destroyErr <;>
        cases hre : ga.sm.renewErr <;>
          simp [runAccessor, GinAdapter.Put, GinAdapter.Remove,
            GinAdapter.RenewToken, GinAdapter.Destroy, GinAdapter.RememberMe,
            GinAdapter.GetString, SessionManager.Put, SessionManager.Remove,
            SessionManager.RememberMe, SessionManager.Commit,
            SessionManager.Destroy, SessionManager.RenewToken,
            SessionManager.GetString, SessionManager.WriteSessionCookie,
            hce, hde, hre] at h ⊢

/-- Witness for c1_amended at the Put accessor over the fault-free manager. -/
theorem c1_amended_witness :
    ((runAccessor gaOK st0 (Accessor.put "k" (SVal.str "v"))).2).cookies.getLast? =
      some (if Accessor.put "k" (SVal.str "v") = Accessor.destroy
              ∨ gaOK.sm.commitErr.isSome then ("", 0)
            else (((runAccessor gaOK st0 (Accessor.put "k" (SVal.str "v"))).2).sess.token,
                  gaOK.sm.expiry))
    ∧ (Accessor.put "k" (SVal.str "v") = Accessor.destroy →
        ((runAccessor gaOK st0 (Accessor.put "k" (SVal.str "v"))).2).sess.status =
          SStatus.destroyed) :=
  c1_amended (Accessor.put "k" (SVal.str "v")) gaOK st0 (by decide)

/-- Claim C2, as stated, is false for Get: on a concrete call, Get returns
the read value and performs a commit (the commit record grows), but no
session-cookie write occurs — the response cookie list stays empty. -/
theorem c2_counterexample :
    (GinAdapter.Get gaOK st0 "k").1 = SessionManager.Get gaOK.sm st0 "k"
    ∧ ((GinAdapter.Get gaOK st0 "k").2).commits = [("t0", 7)]
    ∧ ((GinAdapter.Get gaOK st0 "k").2).cookies = [] := by
  decide

/-- Claim C2 (amended): Get reads and returns the value for the key and
performs a commit, but writes no session cookie; GetString reads and returns
the value and performs a commit followed by a session-cookie write — in both
cases even when no mutation occurred in the request. -/
theorem c2_amended (ga : GinAdapter) (st : AState) (k : String)
    (h : ga.sm.commitErr = none) :
    (GinAdapter.Get ga st k).1 = SessionManager.Get ga.sm st k
    ∧ ((GinAdapter.Get ga st k).2).cookies = st.cookies
    ∧ ((GinAdapter.Get ga st k).2).commits =
        st.commits ++ [(commitToken ga st, ga.sm.expiry)]
    ∧ (GinAdapter.GetString ga st k).1 = SessionManager.GetString ga.sm st k
    ∧ ((GinAdapter.GetString ga st k).2).commits =
        st.commits ++ [(commitToken ga st, ga.sm.expiry)]
    ∧ ((GinAdapter.GetString ga st k).2).cookies =
        st.cookies ++ [(commitToken ga st, ga.sm.expiry)] := by
  simp [GinAdapter.Get, GinAdapter.GetString, SessionManager.Commit,
    SessionManager.WriteSessionCookie, commitToken, h]

/-- Witness for c2_amended at a concrete request state. -/
theorem c2_amended_witness :
    (GinAdapter.Get gaOK st0 "k").1 = SessionManager.Get gaOK.sm st0 "k"
    ∧ ((GinAdapter.Get gaOK st0 "k").2).cookies = st0.cookies
    ∧ ((GinAdapter.Get gaOK st0 "k").2).commits =
        st0.commits ++ [(commitToken gaOK st0, gaOK.sm.expiry)]
    ∧ (GinAdapter.GetString gaOK st0 "k").1 = SessionManager.GetString gaOK.sm st0 "k"
    ∧ ((GinAdapter.GetString gaOK st0 "k").2).commits =
        st0.commits ++ [(commitToken gaOK st0, gaOK.sm.expiry)]
    ∧ ((GinAdapter.GetString gaOK st0 "k").2).cookies =
        st0.cookies ++ [(commitToken gaOK st0, gaOK.sm.expiry)] :=
  c2_amended gaOK st0 "k" (by decide)

/-- Claim C3: when the Destroy store operation fails, the adapter returns the
non-nil error and the request state — its cookie writes included — is left
unchanged; when it succeeds, the adapter returns nil after appending the
cookie-clearing directive (empty token, zero expiry), the session ending up
destroyed. -/
theorem c3_destroy_error_handling (ga : GinAdapter) (st : AState) :
    (∀ e, ga.sm.destroyErr = some e →
      GinAdapter.Destroy ga st = (some e, st))
    ∧ (ga.sm.destroyErr = none →
      (GinAdapter.Destroy ga st).1 = none
      ∧ ((GinAdapter.Destroy ga st).2).cookies = st.cookies ++ [("", 0)]
      ∧ ((GinAdapter.Destroy ga st).2).sess.status = SStatus.destroyed) := by
  constructor
  · intro e he
    simp [GinAdapter.Destroy, SessionManager.Destroy, he]
  · intro h
    simp [GinAdapter.Destroy, SessionManager.Destroy,
      SessionManager.WriteSessionCookie, h]

/-- Witness for c3_destroy_error_handling: both branches at concrete inputs. -/
theorem c3_witness :
    GinAdapter.Destroy gaDF st0 = (some "destroy boom", st0)
    ∧ (GinAdapter.Destroy gaOK st0).1 = none
    ∧ ((GinAdapter.Destroy gaOK st0).2).cookies = st0.cookies ++ [("", 0)] :=
  ⟨(c3_destroy_error_handling gaDF st0).1 "destroy boom" (by decide),
   ((c3_destroy_error_handling gaOK st0).2 (by decide)).1,
   ((c3_destroy_error_handling gaOK st0).2 (by decide)).2.1⟩

/-- Claim C4, as stated, is false: when the renew store operation succeeds
but the subsequent Commit fails, RenewToken still returns nil, yet the cookie
written carries the empty token and zero expiry instead of the new token tN
and its expiry. -/
theorem c4_counterexample :
    (GinAdapter.RenewToken gaCF st0).1 = none
    ∧ ((GinAdapter.RenewToken gaCF st0).2).sess.token = "tN"
    ∧ ((GinAdapter.RenewToken gaCF st0).2).cookies = [("", 0)] := by
  decide

/-- Claim C4 (amended): when the renew store operation fails, RenewToken
returns the non-nil error with the request state — commits and cookie writes
included — unchanged; when it succeeds and the subsequent commit succeeds,
RenewToken returns nil and writes a cookie carrying the new token and expiry;
when it succeeds but the commit fails, RenewToken still returns nil and
writes a cookie with the empty token and zero expiry. -/
theorem c4_amended (ga : GinAdapter) (st : AState) :
    (∀ e, ga.sm.renewErr = some e →
      GinAdapter.RenewToken ga st = (some e, st))
    ∧ (ga.sm.renewErr = none → ga.sm.commitErr = none →
      (GinAdapter.RenewToken ga st).1 = none
      ∧ ((GinAdapter.RenewToken ga st).2).sess.token = ga.sm.freshToken
      ∧ ((GinAdapter.RenewToken ga st).2).cookies =
          st.cookies ++ [(ga.sm.freshToken, ga.sm.expiry)])
    ∧ (ga.sm.renewErr = none → ga.sm.commitErr.isSome →
      (GinAdapter.RenewToken ga st).1 = none
      ∧ ((GinAdapter.RenewToken ga st).2).cookies = st.cookies ++ [("", 0)]) := by
  refine ⟨fun e he => ?_, fun hr hc => ?_, fun hr hc => ?_⟩
  · simp [GinAdapter.RenewToken, SessionManager.RenewToken, he]
  · simp [GinAdapter.RenewToken, SessionManager.RenewToken,
      SessionManager.Commit, SessionManager.WriteSessionCookie, hr, hc]
  · rcases Option.isSome_iff_exists.mp hc with ⟨e, he⟩
    simp [GinAdapter.RenewToken, SessionManager.RenewToken,
      SessionManager.Commit, SessionManager.WriteSessionCookie, hr, he]

/-- Witness for c4_amended: all three branches at concrete inputs. -/
theorem c4_witness :
    GinAdapter.RenewToken gaRF st0 = (some "renew boom", st0)
    ∧ ((GinAdapter.RenewToken gaOK st0).2).cookies =
        st0.cookies ++ [(gaOK.sm.freshToken, gaOK.sm.expiry)]
    ∧ ((GinAdapter.RenewToken gaCF st0).2).cookies = st0.cookies ++ [("", 0)] :=
  ⟨(c4_amended gaRF st0).1 "renew boom" (by decide),
   ((c4_amended gaOK st0).2.1 (by decide) (by decide)).2.2,
   ((c4_amended gaCF st0).2.2 (by decide) (by decide)).2⟩

/-- Claim C5: when Load fails, LoadAndSave invokes the configured error
handler exactly once with the load error and stops — the resulting state
differs from the incoming one only in the error-handler record, so the next
phase is not entered, the request session is not replaced, and the Vary
header is untouched. -/
theorem c5_load_failure (ga : GinAdapter) (handler : MWState → MWState)
    (s : MWState) (e : String)
    (h : SessionManager.Load ga.sm s.store (cookieToken s.reqCookie) =
          Except.error e) :
    GinAdapter.LoadAndSave ga handler s =
      { s with errCalls := s.errCalls + 1, lastErr := some e } := by
  simp [GinAdapter.LoadAndSave, h]

/-- Witness for c5_load_failure: a request with a cookie over the manager
whose Load fails. -/
theorem c5_witness :
    GinAdapter.LoadAndSave gaLF id mwT =
      { mwT with errCalls := mwT.errCalls + 1, lastErr := some "load boom" } :=
  c5_load_failure gaLF id mwT "load boom" (by rfl)

/-- Claim C6: a request carrying no session cookie yields the empty token,
Load succeeds on the empty token with a fresh empty session, and LoadAndSave
attaches that fresh session, adds the Vary value and runs the handler. -/
theorem c6_no_cookie_fresh_session (ga : GinAdapter)
    (handler : MWState → MWState) (s : MWState) (h : s.reqCookie = none) :
    cookieToken s.reqCookie = ""
    ∧ SessionManager.Load ga.sm s.store "" = Except.ok freshSession
    ∧ GinAdapter.LoadAndSave ga handler s =
        handler { s with reqSess := some freshSession,
                         vary := s.vary ++ ["Cookie"],
                         nextCalled := true } := by
  refine ⟨by simp [cookieToken, h], by simp [SessionManager.Load, freshSession], ?_⟩
  simp [GinAdapter.LoadAndSave, cookieToken, h, SessionManager.Load, freshSession]

/-- Witness for c6_no_cookie_fresh_session at the cookie-less request. -/
theorem c6_witness :
    cookieToken mw0.reqCookie = ""
    ∧ SessionManager.Load gaOK.sm mw0.store "" = Except.ok freshSession
    ∧ GinAdapter.LoadAndSave gaOK id mw0 =
        id { mw0 with reqSess := some freshSession,
                      vary := mw0.vary ++ ["Cookie"],
                      nextCalled := true } :=
  c6_no_cookie_fresh_session gaOK id mw0 (by rfl)

/-- Claim C7: when Load succeeds, LoadAndSave hands control to the next
phase on a state that differs from the incoming one exactly in the attached
session context, the added Vary Cookie value and the next-phase flag —
nothing else is mutated before the handler runs. -/
theorem c7_load_success (ga : GinAdapter) (handler : MWState → MWState)
    (s : MWState) (ctx : SessionCtx)
    (h : SessionManager.Load ga.sm s.store (cookieToken s.reqCookie) =
          Except.ok ctx) :
    GinAdapter.LoadAndSave ga handler s =
      handler { s with reqSess := some ctx,
                       vary := s.vary ++ ["Cookie"],
                       nextCalled := true } := by
  simp [GinAdapter.LoadAndSave, h]

/-- Witness for c7_load_success: a request whose cookie names a stored
session. -/
theorem c7_witness :
    GinAdapter.LoadAndSave gaOK id mwT =
      id { mwT with
            reqSess := some { data := [("k", SVal.str "v")], token := "t0",
                              status := SStatus.unmodified },
            vary := mwT.vary ++ ["Cookie"],
            nextCalled := true } :=
  c7_load_success gaOK id mwT
    { data := [("k", SVal.str "v")], token := "t0",
      status := SStatus.unmodified } (by rfl)

/-- Claim C8: when Commit fails, Put, Remove, Get and RememberMe swallow the
failure — each call exposes no error value, Get still returns the read value
(while its commit record shows no commit happened), and the data mutation of
Put, Remove and RememberMe still takes effect on the session. -/
theorem c8_commit_failure_swallowed (ga : GinAdapter) (st : AState)
    (k : String) (v : SVal) (b : Bool) (e : String)
    (h : ga.sm.commitErr = some e) :
    (GinAdapter.Get ga st k).1 = SessionManager.Get ga.sm st k
    ∧ ((GinAdapter.Get ga st k).2).commits = st.commits
    ∧ (runAccessor ga st (Accessor.put k v)).1 = none
    ∧ ((runAccessor ga st (Accessor.put k v)).2).sess.data =
        listPut st.sess.data k v
    ∧ (runAccessor ga st (Accessor.remove k)).1 = none
    ∧ ((runAccessor ga st (Accessor.remove k)).2).sess.data =
        listDel st.sess.data k
    ∧ (runAccessor ga st (Accessor.rememberMe b)).1 = none
    ∧ ((runAccessor ga st (Accessor.rememberMe b)).2).sess.data =
        listPut st.sess.data "__rememberMe" (SVal.boolv b) := by
  simp [runAccessor, GinAdapter.Get, GinAdapter.Put, GinAdapter.Remove,
    GinAdapter.RememberMe, SessionManager.Put, SessionManager.Remove,
    SessionManager.RememberMe, SessionManager.Commit,
    SessionManager.WriteSessionCookie, h]

/-- Witness for c8_commit_failure_swallowed at concrete inputs. -/
theorem c8_witness :
    (GinAdapter.Get gaCF st0 "k").1 = SessionManager.Get gaCF.sm st0 "k"
    ∧ ((GinAdapter.Get gaCF st0 "k").2).commits = st0.commits
    ∧ (runAccessor gaCF st0 (Accessor.put "k" (SVal.str "v"))).1 = none
    ∧ ((runAccessor gaCF st0 (Accessor.put "k" (SVal.str "v"))).2).sess.data =
        listPut st0.sess.data "k" (SVal.str "v")
    ∧ (runAccessor gaCF st0 (Accessor.remove "k")).1 = none
    ∧ ((runAccessor gaCF st0 (Accessor.remove "k")).2).sess.data =
        listDel st0.sess.data "k"
    ∧ (runAccessor gaCF st0 (Accessor.rememberMe true)).1 = none
    ∧ ((runAccessor gaCF st0 (Accessor.rememberMe true)).2).sess.data =
        listPut st0.sess.data "__rememberMe" (SVal.boolv true) :=
  c8_commit_failure_swallowed gaCF st0 "k" (SVal.str "v") true "commit boom"
    (by decide)

theorem listGet_listPut (l : List (String × SVal)) (k : String) (v : SVal) :
    listGet (listPut l k v) k = some v := by
  simp [listGet, listPut]

/-- Claim C9: Put of a key and value followed by a successful RenewToken
leaves the value readable — Get on the same key in the same request returns
the value that was Put, and the session now carries the new token. -/
theorem c9_renew_preserves_put (ga : GinAdapter) (st : AState) (k : String)
    (v : SVal) (h : ga.sm.renewErr = none) :
    (GinAdapter.RenewToken ga (GinAdapter.Put ga st k v)).1 = none
    ∧ ((GinAdapter.RenewToken ga (GinAdapter.Put ga st k v)).2).sess.token =
        ga.sm.freshToken
    ∧ (GinAdapter.Get ga
        ((GinAdapter.RenewToken ga (GinAdapter.Put ga st k v)).2) k).1 =
        some v := by
  cases hce : ga.sm.commitErr <;>
    simp [GinAdapter.RenewToken, GinAdapter.Put, GinAdapter.Get,
      SessionManager.Put, SessionManager.RenewToken, SessionManager.Commit,
      SessionManager.Get, SessionManager.WriteSessionCookie, h, hce,
      listGet_listPut]

/-- Witness for c9_renew_preserves_put at concrete inputs. -/
theorem c9_witness :
    (GinAdapter.RenewToken gaOK (GinAdapter.Put gaOK st0 "foo" (SVal.str "bar"))).1 = none
    ∧ ((GinAdapter.RenewToken gaOK
        (GinAdapter.Put gaOK st0 "foo" (SVal.str "bar"))).2).sess.token =
        gaOK.sm.freshToken
    ∧ (GinAdapter.Get gaOK
        ((GinAdapter.RenewToken gaOK
          (GinAdapter.Put gaOK st0 "foo" (SVal.str "bar"))).2) "foo").1 =
        some (SVal.str "bar") :=
  c9_renew_preserves_put gaOK st0 "foo" (SVal.str "bar") (by decide)

/-- Claim C10: when Commit fails, Put, Remove, RememberMe and GetString still
call the cookie-writing routine unconditionally with the zero values the
failed commit returned — the effective Set-Cookie entry is the clearing
directive (empty token, zero expiry) although the session was not destroyed. -/
theorem c10_commit_failure_clearing_cookie (ga : GinAdapter) (st : AState)
    (k : String) (v : SVal) (b : Bool) (e : String)
    (h : ga.sm.commitErr = some e) :
    (GinAdapter.Put ga st k v).cookies.getLast? = some ("", 0)
    ∧ (GinAdapter.Put ga st k v).sess.status = SStatus.modified
    ∧ (GinAdapter.Remove ga st k).cookies.getLast? = some ("", 0)
    ∧ (GinAdapter.Remove ga st k).sess.status = SStatus.modified
    ∧ (GinAdapter.RememberMe ga st b).cookies.getLast? = some ("", 0)
    ∧ (GinAdapter.RememberMe ga st b).sess.status = SStatus.modified
    ∧ ((GinAdapter.GetString ga st k).2).cookies.getLast? = some ("", 0)
    ∧ ((GinAdapter.GetString ga st k).2).sess.status = st.sess.status := by
  simp [GinAdapter.Put, GinAdapter.Remove, GinAdapter.RememberMe,
    GinAdapter.GetString, SessionManager.Put, SessionManager.Remove,
    SessionManager.RememberMe, SessionManager.Commit,
    SessionManager.WriteSessionCookie, h]

/-- Witness for c10_commit_failure_clearing_cookie at concrete inputs. -/
theorem c10_witness :
    (GinAdapter.Put gaCF st0 "k" (SVal.str "v")).cookies.getLast? = some ("", 0)
    ∧ (GinAdapter.Put gaCF st0 "k" (SVal.str "v")).sess.status = SStatus.modified
    ∧ (GinAdapter.Remove gaCF st0 "k").cookies.getLast? = some ("", 0)
    ∧ (GinAdapter.Remove gaCF st0 "k").sess.status = SStatus.modified
    ∧ (GinAdapter.RememberMe gaCF st0 true).cookies.getLast? = some ("", 0)
    ∧ (GinAdapter.RememberMe gaCF st0 true).sess.status = SStatus.modified
    ∧ ((GinAdapter.GetString gaCF st0 "k").2).cookies.getLast? = some ("", 0)
    ∧ ((GinAdapter.GetString gaCF st0 "k").2).sess.status = st0.sess.status :=
  c10_commit_failure_clearing_cookie gaCF st0 "k" (SVal.str "v") true
    "commit boom" (by decide)
